import Mathlib

/-!
Shallow embedding of the core of `src/app.py` (a YouTube analytics dashboard):
the channel resolver (`fetch_channel_info`), the video aggregator
(`get_recent_videos`), the hierarchical filter over the aggregated videos,
and the aggregate statistics block.  Timestamps are modelled as `Int`
(naive-UTC seconds), durations as `ℚ` (Python float seconds), and the remote
YouTube API as explicit function-valued parameters, so every operation is an
executable Lean function of its inputs.
-/

/-- A folder record, `{id, name}` (app.py session state `folders`). -/
structure Folder where
  id : String
  name : String
deriving DecidableEq

/-- A channel record as built by `fetch_channel_info`:
`{id, title, handle, thumbnail, uploads_id, folder_id}`. -/
structure Channel where
  id : String
  title : String
  handle : String
  thumbnail : String
  uploads_id : String
  folder_id : String
deriving DecidableEq

/-- A video record as built inside `get_recent_videos` (app.py lines 140-153). -/
structure Video where
  id : String
  channel_id : String
  channel_title : String
  title : String
  thumbnail : String
  published_at : Int
  view_count : Nat
  like_count : Nat
  comment_count : Nat
  duration_sec : ℚ
  is_short : Bool
  url : String
deriving DecidableEq

/-- The hierarchical filter of app.py lines 273-280: a set channel selection
filters by `channel_id` equality (the folder selection is not consulted);
otherwise a set folder selection filters by membership of `channel_id` in the
ids of the channels whose `folder_id` matches; otherwise no restriction. -/
def hierarchical_filter (videos : List Video) (channels : List Channel)
    (selected_channel_id : Option String) (selected_folder_id : Option String) :
    List Video :=
  match selected_channel_id with
  | some cid => videos.filter (fun v => v.channel_id == cid)
  | none =>
    match selected_folder_id with
    | some fid =>
      let folder_channel_ids :=
        (channels.filter (fun c => c.folder_id == fid)).map (fun c => c.id)
      videos.filter (fun v => folder_channel_ids.contains v.channel_id)
    | none => videos

/-- The aggregate statistics of app.py lines 306-309. -/
structure Stats where
  count : Nat
  total_views : Nat
  total_likes : Nat
  total_comments : Nat
deriving DecidableEq

/-- The len / sum aggregation over the filtered videos (app.py lines 306-309). -/
def aggregate_stats (videos : List Video) : Stats :=
  { count := videos.length
    total_views := (videos.map (fun v => v.view_count)).sum
    total_likes := (videos.map (fun v => v.like_count)).sum
    total_comments := (videos.map (fun v => v.comment_count)).sum }

/-- A playlist item as read from `playlistItems.list`: the video id plus the
parsed `snippet.publishedAt` (naive UTC seconds). -/
structure PlaylistItem where
  videoId : String
  published_at : Int
deriving DecidableEq

/-- A per-id record of the `videos.list` endpoint: snippet, statistics (absent
counters modelled as `none`), and the parsed ISO-8601 duration in seconds. -/
structure VideoDetail where
  id : String
  title : String
  thumbnail : String
  published_at : Int
  view_count : Option Nat
  like_count : Option Nat
  comment_count : Option Nat
  duration_sec : ℚ
deriving DecidableEq

/-- A transport / quota failure of a remote call (`HttpError`). -/
inductive ApiFailure
  | http (code : Nat)
deriving DecidableEq

/-- The remote video platform as seen by the aggregator: per-playlist upload
feeds, a per-id video database, and flags saying which calls succeed. -/
structure Remote where
  feed : String → List PlaylistItem
  db : String → Option VideoDetail
  playlistOk : String → Bool
  videosOk : List String → Bool

/-- The call `playlistItems.list(playlistId, maxResults=20)`: the first 20
feed items, or a transport failure. -/
def playlist_items_list (r : Remote) (pid : String) :
    Except ApiFailure (List PlaylistItem) :=
  if r.playlistOk pid then .ok ((r.feed pid).take 20) else .error (.http 500)

/-- The call `videos.list(id=",".join(ids))`: the database records of the
requested ids, or a transport failure. -/
def videos_list (r : Remote) (ids : List String) :
    Except ApiFailure (List VideoDetail) :=
  if r.videosOk ids then .ok (ids.filterMap r.db) else .error (.http 500)

/-- A remote `execute()` call issued by the aggregator. -/
inductive ApiCall
  | playlistItems (pid : String)
  | videos (ids : List String)
deriving DecidableEq

/-- Construction of one video record (app.py lines 140-153): statistics
default to 0 when absent, `is_short` is `duration_sec < 60`, and the url is
derived from the video id. -/
def mk_video (c : Channel) (d : VideoDetail) : Video :=
  { id := d.id
    channel_id := c.id
    channel_title := c.title
    title := d.title
    thumbnail := d.thumbnail
    published_at := d.published_at
    view_count := d.view_count.getD 0
    like_count := d.like_count.getD 0
    comment_count := d.comment_count.getD 0
    duration_sec := d.duration_sec
    is_short := decide (d.duration_sec < 60)
    url := "https://www.youtube.com/watch?v=" ++ d.id }

/-- The body of the per-channel `try` block of `get_recent_videos` (app.py
lines 111-154): fetch the uploads feed, keep the ids published within the
window, batch-fetch their details and build the video records.  Returns the
outcome together with the remote calls issued. -/
def process_channel (r : Remote) (one_week_ago : Int) (c : Channel) :
    Except ApiFailure (List Video) × List ApiCall :=
  match playlist_items_list r c.uploads_id with
  | .error e => (.error e, [.playlistItems c.uploads_id])
  | .ok items =>
    let video_ids :=
      (items.filter (fun it => one_week_ago ≤ it.published_at)).map
        (fun it => it.videoId)
    if video_ids.isEmpty then (.ok [], [.playlistItems c.uploads_id])
    else
      match videos_list r video_ids with
      | .error e =>
        (.error e, [.playlistItems c.uploads_id, .videos video_ids])
      | .ok details =>
        (.ok (details.map (mk_video c)),
         [.playlistItems c.uploads_id, .videos video_ids])

/-- The `for channel in _channels` loop of `get_recent_videos`: a failed
channel contributes nothing (`except ... continue`), a successful one appends
its videos to the accumulator. -/
def process_channels (r : Remote) (one_week_ago : Int) :
    List Channel → List Video × List ApiCall
  | [] => ([], [])
  | c :: rest =>
    let pc := process_channel r one_week_ago c
    let restRes := process_channels r one_week_ago rest
    ((match pc.1 with | .ok vs => vs | .error _ => []) ++ restRes.1,
     pc.2 ++ restRes.2)

/-- The function `get_recent_videos` (app.py lines 100-159) instrumented with the list of
remote calls issued.  `now` is the fetch time in seconds; the window cutoff is
`now - 7 days`.  An empty channel list returns immediately. -/
def get_recent_videos_traced (r : Remote) (now : Int) (channels : List Channel) :
    List Video × List ApiCall :=
  if channels.isEmpty then ([], [])
  else process_channels r (now - 7 * 86400) channels

/-- The aggregated video list returned by `get_recent_videos`. -/
def get_recent_videos (r : Remote) (now : Int) (channels : List Channel) :
    List Video :=
  (get_recent_videos_traced r now channels).1

/-- The modelling assumption that the two remote endpoints describe the same
underlying videos: a feed item's timestamp agrees with the timestamp stored in
the per-id database. -/
def consistent_remote (r : Remote) : Prop :=
  ∀ pid : String, ∀ it ∈ r.feed pid, ∀ d : VideoDetail,
    r.db it.videoId = some d → d.published_at = it.published_at

/-- A concrete channel record used in concrete runs. -/
def wchannel : Channel :=
  { id := "UC1", title := "Chan", handle := "@chan", thumbnail := "th",
    uploads_id := "UU1", folder_id := "f-0" }

/-- A concrete 45-second video detail record. -/
def wdetail45 : VideoDetail :=
  { id := "v1", title := "V1", thumbnail := "t1", published_at := 500,
    view_count := some 10, like_count := none, comment_count := some 2,
    duration_sec := 45 }

/-- A concrete 59.999-second video detail record. -/
def wdetail59 : VideoDetail :=
  { id := "v2", title := "V2", thumbnail := "t2", published_at := 500,
    view_count := some 3, like_count := some 1, comment_count := none,
    duration_sec := 59999 / 1000 }

/-- A concrete 60-second video detail record. -/
def wdetail60 : VideoDetail :=
  { id := "v3", title := "V3", thumbnail := "t3", published_at := 500,
    view_count := none, like_count := none, comment_count := none,
    duration_sec := 60 }

/-- A concrete remote serving one 45-second video published at time 500. -/
def wremote : Remote :=
  { feed := fun _ => [⟨"v1", 500⟩]
    db := fun _ => some wdetail45
    playlistOk := fun _ => true
    videosOk := fun _ => true }

/-- A concrete channel whose uploads playlist id is the failing one. -/
def bad_channel : Channel :=
  { id := "UC2", title := "Bad", handle := "", thumbnail := "",
    uploads_id := "BAD", folder_id := "f-0" }

/-- A concrete remote that fails the playlist call for playlist `BAD` and
serves the 45-second video everywhere else. -/
def c7remote : Remote :=
  { feed := fun _ => [⟨"v1", 500⟩]
    db := fun _ => some wdetail45
    playlistOk := fun pid => pid != "BAD"
    videosOk := fun _ => true }

/-- A `channels.list` item: snippet fields plus the uploads playlist id from
the related-playlists content details. -/
structure ChannelItem where
  id : String
  title : String
  customUrl : Option String
  thumbnailDefault : String
  uploadsPlaylist : String
deriving DecidableEq

/-- The remote endpoints used by `fetch_channel_info`: handle lookup, direct
id lookup, and the single-result channel-type search (returning the top
match's channel id). -/
structure ResolverApi where
  channelsByHandle : String → Except ApiFailure (Option ChannelItem)
  channelsById : String → Except ApiFailure (Option ChannelItem)
  searchChannel : String → Except ApiFailure (Option String)

/-- The test `identifier.startswith('@')` of app.py line 52: whether the
first character of the identifier is `@`. -/
def starts_with_at (identifier : String) : Bool :=
  match identifier.data with
  | [] => false
  | c :: _ => c == '@'

/-- Step 1 of `fetch_channel_info` (app.py lines 52-57): identifiers starting
with `@` use the handle lookup, all others the direct id lookup. -/
def channels_lookup (api : ResolverApi) (identifier : String) :
    Except ApiFailure (Option ChannelItem) :=
  if starts_with_at identifier then api.channelsByHandle identifier
  else api.channelsById identifier

/-- The distinguishable outcomes of `fetch_channel_info`: a returned channel
dict, the not-found error message, the duplicate warning, the caught
`HttpError`, or exhaustion of the recursion allowance of the model. -/
inductive ResolveOutcome
  | ok (c : Channel)
  | notFound
  | duplicate
  | apiError
  | outOfFuel
deriving DecidableEq

/-- The observable result of a `fetch_channel_info` call: its outcome, the
folder collection after the call (the function may append a default folder),
and how many `search.list` calls were executed. -/
structure ResolveResult where
  outcome : ResolveOutcome
  folders : List Folder
  searchCalls : Nat
deriving DecidableEq

/-- The label of the automatically created default folder (app.py line 81). -/
def default_folder_name : String := "기본 폴더"

/-- Folder id generation, `f"f-{int(time.time())}"` (app.py lines 80 and
179): the current whole-second timestamp interpolated after `f-`. -/
def folder_id_gen (nowT : Nat) : String := "f-" ++ Nat.repr nowT

/-- The channel dict built by `fetch_channel_info` (app.py lines 86-93). -/
def mk_channel_record (item : ChannelItem) (target_folder_id : String) :
    Channel :=
  { id := item.id
    title := item.title
    handle := item.customUrl.getD ""
    thumbnail := item.thumbnailDefault
    uploads_id := item.uploadsPlaylist
    folder_id := target_folder_id }

/-- The resolver `fetch_channel_info` (app.py lines 46-97).  `nowT` is the whole-second
clock reading used for folder id generation, `fuel` bounds the recursion depth
of the model (the Python source recurses without any bound): at fuel 0 the
model reports `outOfFuel` where the source would keep recursing. -/
def fetch_channel_info (api : ResolverApi) (nowT : Nat)
    (channels : List Channel) : Nat → String → List Folder → ResolveResult
  | 0, _, folders => ⟨.outOfFuel, folders, 0⟩
  | fuel + 1, identifier, folders =>
    match channels_lookup api identifier with
    | .error _ => ⟨.apiError, folders, 0⟩
    | .ok none =>
      match api.searchChannel identifier with
      | .error _ => ⟨.apiError, folders, 1⟩
      | .ok (some cid) =>
        let r := fetch_channel_info api nowT channels fuel cid folders
        ⟨r.outcome, r.folders, r.searchCalls + 1⟩
      | .ok none => ⟨.notFound, folders, 1⟩
    | .ok (some item) =>
      if channels.any (fun c => c.id == item.id) then ⟨.duplicate, folders, 0⟩
      else
        match folders with
        | [] =>
          let nfid := folder_id_gen nowT
          ⟨.ok (mk_channel_record item nfid),
           folders ++ [{ id := nfid, name := default_folder_name }], 0⟩
        | f :: _ => ⟨.ok (mk_channel_record item f.id), folders, 0⟩

/-- The folder-add button handler (app.py lines 176-183): a non-empty name
appends a folder with a freshly generated timestamp id. -/
def add_folder_click (nowT : Nat) (new_folder : String) (folders : List Folder) :
    List Folder :=
  if new_folder = "" then folders
  else folders ++ [{ id := folder_id_gen nowT, name := new_folder }]

/-- The channel-add button handler (app.py lines 202-216): on a successful
resolve the folder chosen in the add form (if any) overrides the default
assignment and the channel is appended; otherwise the channel collection is
left alone.  Returns the channel and folder collections after the click. -/
def add_channel_click (api : ResolverApi) (nowT fuel : Nat) (identifier : String)
    (selected_folder_for_add : Option String) (channels : List Channel)
    (folders : List Folder) : List Channel × List Folder :=
  let r := fetch_channel_info api nowT channels fuel identifier folders
  match r.outcome with
  | .ok c =>
    let c2 := match selected_folder_for_add with
      | some fid => { c with folder_id := fid }
      | none => c
    (channels ++ [c2], r.folders)
  | _ => (channels, r.folders)

/-- A concrete `channels.list` item. -/
def sample_item : ChannelItem :=
  { id := "UC1", title := "Chan", customUrl := some "@chan",
    thumbnailDefault := "th", uploadsPlaylist := "UU1" }

/-- A concrete resolver api whose direct lookups always find `sample_item`
and whose search never returns a result. -/
def direct_api : ResolverApi :=
  { channelsByHandle := fun _ => .ok (some sample_item)
    channelsById := fun _ => .ok (some sample_item)
    searchChannel := fun _ => .ok none }

/-- A concrete resolver api whose lookups never find anything while the
search always reports channel id `UCX`: every resolve attempt falls back to
the search and recurses again. -/
def looping_api : ResolverApi :=
  { channelsByHandle := fun _ => .ok none
    channelsById := fun _ => .ok none
    searchChannel := fun _ => .ok (some "UCX") }

/-- Numeric value of a decimal digit character. -/
def digit_val (c : Char) : Nat := c.toNat - 48

/-- Numeric value of a decimal digit string, most significant digit first. -/
def digits_val (l : List Char) : Nat :=
  l.foldl (fun a c => 10 * a + digit_val c) 0

/-- C1: if a channel selection is set the filter keeps exactly the videos of
that channel and ignores any folder selection; with only a folder selection it
keeps exactly the videos whose channel belongs to that folder; with neither it
applies no hierarchical restriction. -/
theorem c1_hierarchical_filter_precedence (videos : List Video)
    (channels : List Channel) :
    (∀ cid fsel v, v ∈ hierarchical_filter videos channels (some cid) fsel ↔
      v ∈ videos ∧ v.channel_id = cid)
    ∧ (∀ fid v, v ∈ hierarchical_filter videos channels none (some fid) ↔
      v ∈ videos ∧ ∃ c ∈ channels, c.folder_id = fid ∧ v.channel_id = c.id)
    ∧ hierarchical_filter videos channels none none = videos := by
  refine ⟨?_, ?_, rfl⟩
  · intro cid fsel v
    simp [hierarchical_filter, List.mem_filter]
  · intro fid v
    simp only [hierarchical_filter, List.mem_filter, List.contains_iff_exists_mem_beq,
      List.mem_map, List.mem_filter, beq_iff_eq]
    constructor
    · rintro ⟨hv, a, ⟨c, ⟨hc, hcf⟩, rfl⟩, hbeq⟩
      exact ⟨hv, c, hc, hcf, hbeq⟩
    · rintro ⟨hv, c, hc, hcf, hid⟩
      exact ⟨hv, c.id, ⟨c, ⟨hc, hcf⟩, rfl⟩, hid⟩

/-- C9: the aggregate statistics over an empty video list are all zero. -/
theorem c9_aggregate_stats_empty :
    aggregate_stats [] =
      { count := 0, total_views := 0, total_likes := 0, total_comments := 0 } :=
  rfl

/-- C10: with an empty channel list the aggregator returns the empty list at
once and issues no remote call. -/
theorem c10_empty_channels_no_calls (r : Remote) (now : Int) :
    get_recent_videos_traced r now [] = ([], []) :=
  rfl

/-- The empty-list early return agrees with the loop, so the aggregated list
always equals the loop result. -/
theorem get_recent_videos_eq (r : Remote) (now : Int) (channels : List Channel) :
    get_recent_videos r now channels =
      (process_channels r (now - 7 * 86400) channels).1 := by
  cases channels <;> rfl

/-- The video part of the loop distributes over list append. -/
theorem process_channels_append (r : Remote) (w : Int) (xs ys : List Channel) :
    (process_channels r w (xs ++ ys)).1 =
      (process_channels r w xs).1 ++ (process_channels r w ys).1 := by
  induction xs with
  | nil => simp [process_channels]
  | cons c rest ih => simp [process_channels, ih]

/-- A successful `playlistItems.list` call returns the first 20 feed items. -/
theorem playlist_items_list_ok (r : Remote) (pid : String)
    (items : List PlaylistItem) (h : playlist_items_list r pid = .ok items) :
    items = (r.feed pid).take 20 := by
  unfold playlist_items_list at h
  split at h <;> simp_all

/-- A successful `videos.list` call returns the database records of the
requested ids. -/
theorem videos_list_ok (r : Remote) (ids : List String)
    (details : List VideoDetail) (h : videos_list r ids = .ok details) :
    details = ids.filterMap r.db := by
  unfold videos_list at h
  split at h <;> simp_all

/-- Every video a successful per-channel run returns comes from a feed item of
that channel's uploads playlist that passed the window filter. -/
theorem mem_process_channel (r : Remote) (w : Int) (c : Channel) (v : Video)
    (vs : List Video) (hok : (process_channel r w c).1 = .ok vs) (hv : v ∈ vs) :
    ∃ it ∈ (r.feed c.uploads_id).take 20,
      w ≤ it.published_at ∧ ∃ d, r.db it.videoId = some d ∧ v = mk_video c d := by
  unfold process_channel at hok
  split at hok
  · cases hok
  next items hitems =>
    rw [playlist_items_list_ok r _ _ hitems] at hok
    simp only [] at hok
    split at hok
    · simp only at hok
      cases hok
      simp at hv
    · split at hok
      · cases hok
      next details hdetails =>
        simp only at hok
        cases hok
        rw [videos_list_ok r _ _ hdetails] at hv
        simp only [List.mem_map, List.mem_filterMap, List.mem_filter,
          decide_eq_true_eq] at hv
        obtain ⟨d, ⟨vid, ⟨it, ⟨hit, hw⟩, rfl⟩, hdb⟩, rfl⟩ := hv
        exact ⟨it, hit, hw, d, hdb, rfl⟩

/-- Every aggregated video comes from some listed channel's feed, via an item
that passed the window filter, through the per-id database. -/
theorem mem_process_channels (r : Remote) (w : Int) :
    ∀ (cs : List Channel) (v : Video), v ∈ (process_channels r w cs).1 →
      ∃ c ∈ cs, ∃ it ∈ (r.feed c.uploads_id).take 20,
        w ≤ it.published_at ∧ ∃ d, r.db it.videoId = some d ∧ v = mk_video c d := by
  intro cs
  induction cs with
  | nil => intro v hv; simp [process_channels] at hv
  | cons c rest ih =>
    intro v hv
    simp only [process_channels, List.mem_append] at hv
    rcases hv with hv | hv
    · split at hv
      next vs heq =>
        exact ⟨c, List.mem_cons_self c rest, mem_process_channel r w c v vs heq hv⟩
      next e heq => simp at hv
    · obtain ⟨c', hc', rest'⟩ := ih v hv
      exact ⟨c', List.mem_cons_of_mem _ hc', rest'⟩

/-- C2: under feed/database consistency, every video the aggregator returns
was published within the trailing 7-day window measured at fetch time. -/
theorem c2_window_invariant (r : Remote) (now : Int) (channels : List Channel)
    (hr : consistent_remote r) (v : Video)
    (hv : v ∈ get_recent_videos r now channels) :
    now - 7 * 86400 ≤ v.published_at := by
  rw [get_recent_videos_eq] at hv
  obtain ⟨c, hc, it, hit, hw, d, hdb, rfl⟩ := mem_process_channels r _ channels v hv
  have hfeed : it ∈ r.feed c.uploads_id := List.take_subset _ _ hit
  have hpub := hr c.uploads_id it hfeed d hdb
  simpa [mk_video, hpub] using hw

/-- The concrete remote satisfies the feed/database consistency assumption. -/
theorem wremote_consistent : consistent_remote wremote := by
  intro pid it hit d hd
  simp only [wremote, List.mem_singleton] at hit
  simp only [wremote, Option.some.injEq] at hd
  subst hit
  subst hd
  rfl

/-- Witness for C2: a concrete consistent remote on which the aggregated
video's timestamp meets the window bound. -/
theorem c2_window_invariant_witness :
    mk_video wchannel wdetail45 ∈ get_recent_videos wremote 500 [wchannel]
    ∧ (500 - 7 * 86400 : Int) ≤ (mk_video wchannel wdetail45).published_at := by
  have hmem : mk_video wchannel wdetail45 ∈ get_recent_videos wremote 500 [wchannel] := by
    decide
  exact ⟨hmem, c2_window_invariant wremote 500 [wchannel] wremote_consistent _ hmem⟩

/-- C3: a constructed video record is short exactly when its duration is under
60 seconds; 59.999 seconds is classified short and exactly 60 seconds is
classified long-form. -/
theorem c3_is_short_iff_lt_60 :
    (∀ (c : Channel) (d : VideoDetail),
      ((mk_video c d).is_short = true ↔ (mk_video c d).duration_sec < 60))
    ∧ (∀ (c : Channel) (d : VideoDetail), d.duration_sec = 59999 / 1000 →
        (mk_video c d).is_short = true)
    ∧ (∀ (c : Channel) (d : VideoDetail), d.duration_sec = 60 →
        (mk_video c d).is_short = false) := by
  refine ⟨?_, ?_, ?_⟩
  · intro c d
    simp [mk_video]
  · intro c d h
    simp only [mk_video, h, decide_eq_true_eq]
    norm_num
  · intro c d h
    simp [mk_video, h]

/-- Witness for C3: the boundary durations on concrete records. -/
theorem c3_is_short_iff_lt_60_witness :
    (mk_video wchannel wdetail59).is_short = true
    ∧ (mk_video wchannel wdetail60).is_short = false :=
  ⟨c3_is_short_iff_lt_60.2.1 wchannel wdetail59 rfl,
   c3_is_short_iff_lt_60.2.2 wchannel wdetail60 rfl⟩

/-- C7: a channel whose processing fails contributes nothing: the aggregation
equals the aggregation without that channel, and no error escapes. -/
theorem c7_per_channel_error_isolated (r : Remote) (now : Int)
    (xs ys : List Channel) (c : Channel) (e : ApiFailure)
    (he : (process_channel r (now - 7 * 86400) c).1 = .error e) :
    get_recent_videos r now (xs ++ c :: ys) = get_recent_videos r now (xs ++ ys) := by
  rw [get_recent_videos_eq, get_recent_videos_eq, process_channels_append,
    process_channels_append]
  have hcy : (process_channels r (now - 7 * 86400) (c :: ys)).1 =
      (process_channels r (now - 7 * 86400) ys).1 := by
    simp only [process_channels, he, List.nil_append]
  rw [hcy]

/-- Witness for C7: a concrete remote failing exactly one channel's playlist
call; that channel's removal does not change the aggregation. -/
theorem c7_per_channel_error_isolated_witness :
    (process_channel c7remote (500 - 7 * 86400) bad_channel).1 = .error (.http 500)
    ∧ get_recent_videos c7remote 500 ([wchannel] ++ bad_channel :: [wchannel])
      = get_recent_videos c7remote 500 ([wchannel] ++ [wchannel]) := by
  have he : (process_channel c7remote (500 - 7 * 86400) bad_channel).1
      = .error (.http 500) := rfl
  exact ⟨he,
    c7_per_channel_error_isolated c7remote 500 [wchannel] [wchannel] bad_channel _ he⟩

/-- Folding the digit-value accumulator from an arbitrary start shifts the
start by the appropriate power of ten. -/
theorem digits_val_foldl : ∀ (l : List Char) (a : Nat),
    l.foldl (fun a c => 10 * a + digit_val c) a
      = a * 10 ^ l.length + digits_val l := by
  intro l
  induction l with
  | nil => intro a; simp [digits_val]
  | cons c l ih =>
    intro a
    have hfold : (c :: l).foldl (fun a c => 10 * a + digit_val c) a
        = l.foldl (fun a c => 10 * a + digit_val c) (10 * a + digit_val c) := rfl
    have hcons : digits_val (c :: l)
        = l.foldl (fun a c => 10 * a + digit_val c) (10 * 0 + digit_val c) := rfl
    rw [hfold, ih, hcons, ih]
    simp only [List.length_cons]
    ring

/-- Digit-string values decompose over append positionally. -/
theorem digits_val_append (l1 l2 : List Char) :
    digits_val (l1 ++ l2) = digits_val l1 * 10 ^ l2.length + digits_val l2 := by
  unfold digits_val
  rw [List.foldl_append]
  exact digits_val_foldl l2 _

/-- The value of a single digit character string. -/
theorem digits_val_singleton (c : Char) : digits_val [c] = digit_val c := by
  simp [digits_val]

/-- The values of the ten decimal digit characters. -/
theorem digit_val_digitChar : ∀ k, k < 10 → digit_val (Nat.digitChar k) = k := by
  decide

/-- The digit accumulator of `Nat.toDigitsCore` only prepends: the digits of
`n` followed by whatever was already accumulated. -/
theorem toDigitsCore_shift : ∀ (f n : Nat) (ds : List Char),
    Nat.toDigitsCore 10 f n ds = Nat.toDigitsCore 10 f n [] ++ ds := by
  intro f
  induction f with
  | zero => intro n ds; rfl
  | succ f ih =>
    intro n ds
    simp only [Nat.toDigitsCore]
    by_cases h : n / 10 = 0
    · simp [h]
    · simp only [h, if_false]
      rw [ih (n / 10) (Nat.digitChar (n % 10) :: ds),
        ih (n / 10) [Nat.digitChar (n % 10)]]
      simp

/-- With enough fuel, the decimal digits produced by `Nat.toDigitsCore`
evaluate back to the number. -/
theorem digits_val_toDigitsCore : ∀ (f n : Nat), n < f →
    digits_val (Nat.toDigitsCore 10 f n []) = n := by
  intro f
  induction f with
  | zero => intro n h; omega
  | succ f ih =>
    intro n h
    simp only [Nat.toDigitsCore]
    by_cases h0 : n / 10 = 0
    · simp only [h0, if_true]
      rw [digits_val_singleton, digit_val_digitChar (n % 10) (by omega)]
      omega
    · simp only [h0, if_false]
      rw [toDigitsCore_shift f (n / 10) [Nat.digitChar (n % 10)],
        digits_val_append, ih (n / 10) (by omega), digits_val_singleton,
        digit_val_digitChar (n % 10) (by omega)]
      simp only [List.length_singleton, pow_one]
      omega

/-- Decimal printing of natural numbers is injective. -/
theorem nat_repr_injective : Function.Injective Nat.repr := by
  intro a b h
  have hdata : Nat.toDigits 10 a = Nat.toDigits 10 b := by
    have hd := congrArg String.data h
    simpa [Nat.repr, List.asString] using hd
  have ha := digits_val_toDigitsCore (a + 1) a (Nat.lt_succ_self a)
  have hb := digits_val_toDigitsCore (b + 1) b (Nat.lt_succ_self b)
  unfold Nat.toDigits at hdata
  rw [← ha, ← hb, hdata]

/-- C8 counterexample: two folder-add operations in the same whole second
produce two distinct folders (their names differ) sharing the id `f-100`, so
generated folder ids are not unique. -/
theorem c8_counterexample :
    ((add_folder_click 100 "A" (add_folder_click 100 "B" [])).map (fun f => f.id)
      = ["f-100", "f-100"])
    ∧ ((add_folder_click 100 "A" (add_folder_click 100 "B" [])).map (fun f => f.name)
      = ["B", "A"]) :=
  ⟨rfl, rfl⟩

/-- C8 amended: folder ids generated at distinct whole-second timestamps
differ; only operations within the same second can collide. -/
theorem c8_amended_distinct_timestamps (t1 t2 : Nat) (h : t1 ≠ t2) :
    folder_id_gen t1 ≠ folder_id_gen t2 := by
  intro he
  apply h
  apply nat_repr_injective
  apply String.ext
  have hd := congrArg String.data he
  rw [folder_id_gen, folder_id_gen, String.data_append, String.data_append] at hd
  exact List.append_cancel_left hd

/-- Witness for C8 amended: seconds 1 and 2 generate different folder ids. -/
theorem c8_amended_distinct_timestamps_witness :
    folder_id_gen 1 ≠ folder_id_gen 2 :=
  c8_amended_distinct_timestamps 1 2 (by decide)

/-- C4 counterexample: resolving a fresh channel with zero folders creates the
folder under the code's label `기본 폴더`, which is not the name `Default`
stated by the claim. -/
theorem c4_counterexample :
    ((fetch_channel_info direct_api 100 [] 1 "UC1" []).folders.map
        (fun f => f.name) = [default_folder_name])
    ∧ default_folder_name ≠ "Default" := by
  refine ⟨rfl, ?_⟩
  decide

/-- C4 amended: when the identifier resolves directly to an untracked channel,
an empty folder collection receives exactly one new folder, named `기본 폴더`
(the code's default label), carrying the freshly generated timestamp id, and
the returned channel is assigned to it; a non-empty folder collection is left
unchanged and its first folder is assigned. -/
theorem c4_amended_default_folder (api : ResolverApi) (nowT fuel : Nat)
    (identifier : String) (channels : List Channel) (item : ChannelItem)
    (hlk : channels_lookup api identifier = .ok (some item))
    (hnew : ∀ c ∈ channels, c.id ≠ item.id) :
    (fetch_channel_info api nowT channels (fuel + 1) identifier []
      = ⟨.ok (mk_channel_record item (folder_id_gen nowT)),
         [{ id := folder_id_gen nowT, name := default_folder_name }], 0⟩)
    ∧ ∀ (f : Folder) (rest : List Folder),
        fetch_channel_info api nowT channels (fuel + 1) identifier (f :: rest)
          = ⟨.ok (mk_channel_record item f.id), f :: rest, 0⟩ := by
  have hany : channels.any (fun c => c.id == item.id) = false := by
    rw [Bool.eq_false_iff]
    intro hc
    rw [List.any_eq_true] at hc
    obtain ⟨c, hcmem, hceq⟩ := hc
    exact hnew c hcmem (by simpa using hceq)
  constructor
  · simp [fetch_channel_info, hlk, hany]
  · intro f rest
    simp [fetch_channel_info, hlk, hany]

/-- Witness for C4 amended: a concrete resolve with zero folders and one with
an existing folder. -/
theorem c4_amended_default_folder_witness :
    (fetch_channel_info direct_api 100 [] 1 "UC1" []
      = ⟨.ok (mk_channel_record sample_item (folder_id_gen 100)),
         [{ id := folder_id_gen 100, name := default_folder_name }], 0⟩)
    ∧ fetch_channel_info direct_api 100 [] 1 "UC1" [{ id := "f-0", name := "F" }]
      = ⟨.ok (mk_channel_record sample_item "f-0"),
         [{ id := "f-0", name := "F" }], 0⟩ := by
  have h := c4_amended_default_folder direct_api 100 0 "UC1" [] sample_item rfl
    (by intro c hc; simp at hc)
  exact ⟨h.1, h.2 { id := "f-0", name := "F" } []⟩

/-- C5: if the identifier's direct lookup resolves to an already tracked
channel id, the resolver reports the duplicate and mutates nothing: the folder
collection is returned untouched, no search call is made, and the add-button
handler leaves the channel collection unchanged. -/
theorem c5_duplicate_no_mutation (api : ResolverApi) (nowT fuel : Nat)
    (identifier : String) (sel : Option String) (channels : List Channel)
    (folders : List Folder) (item : ChannelItem)
    (hlk : channels_lookup api identifier = .ok (some item))
    (hdup : ∃ c ∈ channels, c.id = item.id) :
    fetch_channel_info api nowT channels (fuel + 1) identifier folders
      = ⟨.duplicate, folders, 0⟩
    ∧ add_channel_click api nowT (fuel + 1) identifier sel channels folders
      = (channels, folders) := by
  have hany : channels.any (fun c => c.id == item.id) = true := by
    rw [List.any_eq_true]
    obtain ⟨c, hc, he⟩ := hdup
    exact ⟨c, hc, by simpa using he⟩
  have hfetch : fetch_channel_info api nowT channels (fuel + 1) identifier folders
      = ⟨.duplicate, folders, 0⟩ := by
    simp [fetch_channel_info, hlk, hany]
  refine ⟨hfetch, ?_⟩
  simp [add_channel_click, hfetch]

/-- Witness for C5: resolving the already tracked channel UC1 again. -/
theorem c5_duplicate_no_mutation_witness :
    fetch_channel_info direct_api 5 [mk_channel_record sample_item "f-0"] 1 "UC1"
        [{ id := "f-0", name := "F" }]
      = ⟨.duplicate, [{ id := "f-0", name := "F" }], 0⟩
    ∧ add_channel_click direct_api 5 1 "UC1" none
        [mk_channel_record sample_item "f-0"] [{ id := "f-0", name := "F" }]
      = ([mk_channel_record sample_item "f-0"], [{ id := "f-0", name := "F" }]) :=
  c5_duplicate_no_mutation direct_api 5 0 "UC1" none
    [mk_channel_record sample_item "f-0"] [{ id := "f-0", name := "F" }]
    sample_item rfl
    ⟨mk_channel_record sample_item "f-0", List.mem_singleton_self _, rfl⟩

/-- C6 counterexample: with lookups that always miss and a search that always
returns a channel id, the resolver issues a search fallback at every level of
its recursion: at model fuel 3 it has already made three search calls (more
than one fallback hop) and is still recursing. -/
theorem c6_counterexample :
    (fetch_channel_info looping_api 0 [] 3 "query" []).searchCalls = 3
    ∧ (fetch_channel_info looping_api 0 [] 3 "query" []).outcome
      = ResolveOutcome.outOfFuel :=
  ⟨rfl, rfl⟩

/-- If the direct lookup of an identifier does not come back empty, the
resolver answers in that very frame: the result does not depend on the
remaining fuel, no search call is made, and the model never runs out. -/
theorem fetch_channel_info_no_recursion (api : ResolverApi) (nowT : Nat)
    (channels : List Channel) (identifier : String) (folders : List Folder)
    (hne : channels_lookup api identifier ≠ .ok none) (fuel : Nat) :
    fetch_channel_info api nowT channels (fuel + 1) identifier folders
      = fetch_channel_info api nowT channels 1 identifier folders
    ∧ (fetch_channel_info api nowT channels (fuel + 1) identifier
        folders).searchCalls = 0
    ∧ (fetch_channel_info api nowT channels (fuel + 1) identifier
        folders).outcome ≠ ResolveOutcome.outOfFuel := by
  cases hl : channels_lookup api identifier with
  | error e => refine ⟨?_, ?_, ?_⟩ <;> simp [fetch_channel_info, hl]
  | ok o =>
    cases o with
    | none => exact absurd hl hne
    | some item =>
      by_cases hany : channels.any (fun c => c.id == item.id) = true
      · refine ⟨?_, ?_, ?_⟩ <;> simp [fetch_channel_info, hl, hany]
      · cases folders with
        | nil => refine ⟨?_, ?_, ?_⟩ <;> simp [fetch_channel_info, hl, hany]
        | cons f rest => refine ⟨?_, ?_, ?_⟩ <;> simp [fetch_channel_info, hl, hany]

/-- One unfolding step of the resolver in the search-fallback situation. -/
theorem fetch_channel_info_search_step (api : ResolverApi) (nowT : Nat)
    (channels : List Channel) (identifier cid : String) (folders : List Folder)
    (fuel : Nat) (hl : channels_lookup api identifier = .ok none)
    (hs : api.searchChannel identifier = .ok (some cid)) :
    fetch_channel_info api nowT channels (fuel + 1) identifier folders
      = ⟨(fetch_channel_info api nowT channels fuel cid folders).outcome,
         (fetch_channel_info api nowT channels fuel cid folders).folders,
         (fetch_channel_info api nowT channels fuel cid folders).searchCalls + 1⟩ := by
  conv_lhs => rw [fetch_channel_info]
  rw [hl, hs]

/-- C6 amended: the resolver recurses every time a direct lookup comes back
empty, with no recursion bound in the source; whenever the channel id returned
by the search fallback does not itself miss on direct lookup, at most one
fallback hop occurs, the result is independent of any fuel of at least 2, and
resolution terminates. -/
theorem c6_amended_one_fallback_hop (api : ResolverApi) (nowT : Nat)
    (channels : List Channel) (identifier : String) (folders : List Folder)
    (hres : ∀ cid, api.searchChannel identifier = .ok (some cid) →
      channels_lookup api cid ≠ .ok none) (fuel : Nat) (hfuel : 2 ≤ fuel) :
    fetch_channel_info api nowT channels fuel identifier folders
      = fetch_channel_info api nowT channels 2 identifier folders
    ∧ (fetch_channel_info api nowT channels fuel identifier folders).searchCalls ≤ 1
    ∧ (fetch_channel_info api nowT channels fuel identifier folders).outcome
      ≠ ResolveOutcome.outOfFuel := by
  obtain ⟨k, rfl⟩ : ∃ k, fuel = k + 2 := ⟨fuel - 2, by omega⟩
  cases hl : channels_lookup api identifier with
  | error e => refine ⟨?_, ?_, ?_⟩ <;> simp [fetch_channel_info, hl]
  | ok o =>
    cases o with
    | some item =>
      obtain ⟨he1, hs1, ho1⟩ := fetch_channel_info_no_recursion api nowT channels
        identifier folders (by simp [hl]) (k + 1)
      obtain ⟨he2, _, _⟩ := fetch_channel_info_no_recursion api nowT channels
        identifier folders (by simp [hl]) 1
      exact ⟨he1.trans he2.symm, by rw [hs1]; omega, ho1⟩
    | none =>
      cases hs : api.searchChannel identifier with
      | error e => refine ⟨?_, ?_, ?_⟩ <;> simp [fetch_channel_info, hl, hs]
      | ok oc =>
        cases oc with
        | none => refine ⟨?_, ?_, ?_⟩ <;> simp [fetch_channel_info, hl, hs]
        | some cid =>
          have hne := hres cid hs
          obtain ⟨hie, his, hio⟩ := fetch_channel_info_no_recursion api nowT
            channels cid folders hne k
          rw [hie] at his hio
          rw [fetch_channel_info_search_step api nowT channels identifier cid
              folders (k + 1) hl hs,
            fetch_channel_info_search_step api nowT channels identifier cid
              folders 1 hl hs,
            hie]
          exact ⟨rfl, by simp [his], by simpa using hio⟩

/-- Witness for C6 amended: the always-resolving api settles at fuel 5 exactly
as at fuel 2, with at most one search call. -/
theorem c6_amended_one_fallback_hop_witness :
    fetch_channel_info direct_api 0 [] 5 "q" []
      = fetch_channel_info direct_api 0 [] 2 "q" []
    ∧ (fetch_channel_info direct_api 0 [] 5 "q" []).searchCalls ≤ 1
    ∧ (fetch_channel_info direct_api 0 [] 5 "q" []).outcome
      ≠ ResolveOutcome.outOfFuel :=
  c6_amended_one_fallback_hop direct_api 0 [] "q" []
    (fun cid h => by simp [direct_api] at h) 5 (by omega)
